import Mathlib

/-!
Shallow embedding of `src/project/src/App.tsx` (CâmbioTrack dashboard).

JavaScript numbers are modelled by `JSNum`: either a rational value or one of
the special values NaN, +Infinity, -Infinity (negative zero is not modelled;
no code path here distinguishes it).  The arithmetic cases below follow the
IEEE-754/ECMAScript rules for the special values.  `toFixed(2)` is modelled by
half-up rounding to an integer number of hundredths, which is the rounding
ECMAScript specifies for `Number.prototype.toFixed` (pick the larger candidate
on ties), ignoring binary floating-point representation error.
-/

inductive JSNum where
  | nan : JSNum
  | posInf : JSNum
  | negInf : JSNum
  | num : ℚ → JSNum
deriving DecidableEq, Repr

namespace JSNum

/-- JavaScript truthiness for numbers: `0` and `NaN` are falsy, everything
else (including the infinities) is truthy. -/
def isFalsy : JSNum → Bool
  | nan => true
  | num q => q == 0
  | _ => false

def isTruthy (x : JSNum) : Bool := !x.isFalsy

def isNaN : JSNum → Bool
  | nan => true
  | _ => false

/-- JavaScript `+` on numbers. -/
def add : JSNum → JSNum → JSNum
  | nan, _ => nan
  | _, nan => nan
  | posInf, negInf => nan
  | negInf, posInf => nan
  | posInf, _ => posInf
  | _, posInf => posInf
  | negInf, _ => negInf
  | _, negInf => negInf
  | num a, num b => num (a + b)

/-- JavaScript `*` on numbers. -/
def mul : JSNum → JSNum → JSNum
  | nan, _ => nan
  | _, nan => nan
  | posInf, posInf => posInf
  | posInf, negInf => negInf
  | negInf, posInf => negInf
  | negInf, negInf => posInf
  | posInf, num b => if b = 0 then nan else if 0 < b then posInf else negInf
  | num a, posInf => if a = 0 then nan else if 0 < a then posInf else negInf
  | negInf, num b => if b = 0 then nan else if 0 < b then negInf else posInf
  | num a, negInf => if a = 0 then nan else if 0 < a then negInf else posInf
  | num a, num b => num (a * b)

/-- JavaScript `/` on numbers (division by zero yields an infinity, `0/0` is
NaN; dividing a finite value by an infinity yields `0`). -/
def div : JSNum → JSNum → JSNum
  | nan, _ => nan
  | _, nan => nan
  | posInf, posInf => nan
  | posInf, negInf => nan
  | negInf, posInf => nan
  | negInf, negInf => nan
  | posInf, num b => if 0 ≤ b then posInf else negInf
  | negInf, num b => if 0 ≤ b then negInf else posInf
  | num _, posInf => num 0
  | num _, negInf => num 0
  | num a, num b =>
      if b = 0 then (if a = 0 then nan else if 0 < a then posInf else negInf)
      else num (a / b)

end JSNum

/-- Half-up rounding to 2 decimal places, the exact-arithmetic semantics of
`Number(x.toFixed(2))` for a finite value. -/
def round2 (q : ℚ) : ℚ := ((round (q * 100) : ℤ) : ℚ) / 100

/-- `Number(x.toFixed(2))` on a JavaScript number: `NaN.toFixed(2)` is
`"NaN"` and `Number("NaN")` is NaN again; likewise the infinities map to
themselves. -/
def JSNum.round2JS : JSNum → JSNum
  | .num q => .num (round2 q)
  | x => x

/-- Two's-digit fixed representation `x.toFixed(2)` of a finite value. -/
def toFixed2 (q : ℚ) : String :=
  let n : ℤ := round (q * 100)
  let a : ℕ := n.natAbs
  let frac : ℕ := a % 100
  let s : String :=
    toString (a / 100) ++ "." ++ (if frac < 10 then "0" else "") ++ toString frac
  if n < 0 then "-" ++ s else s

/-- `x.toFixed(2)` on a JavaScript number (the special values print
themselves). -/
def JSNum.toFixed2S : JSNum → String
  | .nan => "NaN"
  | .posInf => "Infinity"
  | .negInf => "-Infinity"
  | .num q => toFixed2 q

/-- JavaScript `Number(s)` restricted to the unsigned/signed decimal literals
that the dashboard's `type="number"` inputs produce: the empty string gives
`0`, a decimal literal gives its value, anything else gives NaN.
(Whitespace trimming and exponent notation are not exercised by this UI and
are not modelled.) -/
def parseUnsignedDec (cs : List Char) : Option ℚ :=
  let ip := cs.takeWhile (fun c => c ≠ '.')
  let rest := cs.dropWhile (fun c => c ≠ '.')
  match rest with
  | [] =>
      if ip ≠ [] ∧ ip.all Char.isDigit then
        some ((ip.foldl (fun n c => 10 * n + (c.toNat - 48)) 0 : ℕ) : ℚ)
      else none
  | _ :: fp =>
      if (ip ≠ [] ∨ fp ≠ []) ∧ ip.all Char.isDigit ∧ fp.all Char.isDigit
          ∧ fp.all (fun c => c ≠ '.') then
        some (((ip.foldl (fun n c => 10 * n + (c.toNat - 48)) 0 : ℕ) : ℚ)
          + ((fp.foldl (fun n c => 10 * n + (c.toNat - 48)) 0 : ℕ) : ℚ) / (10 ^ fp.length))
      else none

def parseSignedDec (cs : List Char) : Option ℚ :=
  match cs with
  | '-' :: rest => (parseUnsignedDec rest).map (fun q => -q)
  | '+' :: rest => parseUnsignedDec rest
  | _ => parseUnsignedDec cs

def jsNumber (s : String) : JSNum :=
  if s = "" then .num 0
  else
    match parseSignedDec s.toList with
    | some q => .num q
    | none => .nan

/-! Data model of App.tsx. -/

/-- `interface ExchangeRate` (App.tsx lines 8-13). The `symbol` field is an
`Option` because `CURRENCY_SYMBOLS[currency]` is `undefined` off the fixed
symbol table. -/
structure ExchangeRate where
  currency : String
  symbol : Option String
  rate : JSNum
  change : ℚ
deriving DecidableEq, Repr

/-- `type` field of `interface Alert`: `'above' | 'below'`. -/
inductive AlertType where
  | above : AlertType
  | below : AlertType
deriving DecidableEq, Repr

/-- `interface Alert` (App.tsx lines 15-19). -/
structure Alert where
  currency : String
  targetRate : JSNum
  type : AlertType
deriving DecidableEq, Repr

/-- `interface HistoricalData` (App.tsx lines 21-24). -/
structure HistoricalData where
  date : String
  rate : JSNum
deriving DecidableEq, Repr

/-- `interface APIResponse` (App.tsx lines 26-31); `conversion_rates` is the
wire mapping from currency code to rate, `none` modelling an absent key. -/
structure APIResponse where
  result : String
  base_code : String
  conversion_rates : String → Option ℚ
  time_last_update_unix : ℤ

/-- The alert creation form state (`alertForm`, App.tsx lines 59-63);
`targetRate` is the raw input string. -/
structure AlertForm where
  currency : String
  targetRate : String
  type : AlertType
deriving DecidableEq, Repr

/-- The `timeRange` state: `'24h' | '7d' | '30d' | '1y'`. -/
inductive TimeRange where
  | h24 : TimeRange
  | d7 : TimeRange
  | d30 : TimeRange
  | y1 : TimeRange
deriving DecidableEq, Repr

/-- `CURRENCY_SYMBOLS` (App.tsx lines 36-41). -/
def CURRENCY_SYMBOLS : String → Option String := fun c =>
  if c = "USD" then some "$"
  else if c = "EUR" then some "€"
  else if c = "GBP" then some "£"
  else if c = "BRL" then some "R$"
  else none

/-- `SUPPORTED_CURRENCIES` (App.tsx line 43). -/
def SUPPORTED_CURRENCIES : List String := ["USD", "EUR", "GBP", "BRL"]

/-- The `useState` fields of `App` (App.tsx lines 46-63). -/
structure AppState where
  darkMode : Bool
  selectedCurrency : String
  timeRange : TimeRange
  rates : List ExchangeRate
  historicalData : List HistoricalData
  alerts : List Alert
  showConverter : Bool
  convertAmount : String
  convertFrom : String
  convertTo : String
  loading : Bool
  error : Option String
  lastUpdate : Option ℤ

/-! The fetch pipeline (App.tsx lines 65-95). -/

/-- JavaScript `1 / conversion_rates[currency]`: an absent key gives
`1 / undefined = NaN`, a zero value gives `1 / 0 = Infinity`. -/
def jsInv (o : Option ℚ) : JSNum :=
  match o with
  | none => .nan
  | some q => if q = 0 then .posInf else .num (1 / q)

/-- One element of the `SUPPORTED_CURRENCIES.map` in the success branch
(App.tsx lines 76-81): `rate: currency === 'BRL' ? 1 : 1 / conversion_rates[currency]`,
`change: 0`. -/
def mkRecord (conv : String → Option ℚ) (currency : String) : ExchangeRate :=
  { currency := currency
    symbol := CURRENCY_SYMBOLS currency
    rate := if currency = "BRL" then .num 1 else jsInv (conv currency)
    change := 0 }

/-- `newRates` of the success branch (App.tsx lines 76-81). -/
def newRates (conv : String → Option ℚ) : List ExchangeRate :=
  SUPPORTED_CURRENCIES.map (mkRecord conv)

/-- The outcome of the awaited HTTP GET: `Except.error cause` models a thrown
transport error whose `Error.message` is `cause`; `Except.ok r` models a
response that parsed as `APIResponse`. -/
abbrev FetchOutcome := Except String APIResponse

/-- `fetchExchangeRates` (App.tsx lines 65-95) as one atomic state transition
from the old state and the fetch outcome to the new state: on a `success`
result the four supported records are rebuilt and `lastUpdate` is set from
`time_last_update_unix * 1000`; a non-`success` result throws
`Error('Failed to fetch exchange rates')` which the catch turns into the
formatted error message; a transport error is formatted the same way with its
own message.  `loading` ends `false` in every branch (the `finally`). -/
def fetchExchangeRates (st : AppState) (outcome : FetchOutcome) : AppState :=
  match outcome with
  | .error cause =>
      { st with
          loading := false
          error := some ("Erro ao carregar taxas de câmbio: " ++ cause) }
  | .ok r =>
      if r.result = "success" then
        { st with
            rates := newRates r.conversion_rates
            lastUpdate := some (r.time_last_update_unix * 1000)
            loading := false
            error := none }
      else
        { st with
            loading := false
            error := some ("Erro ao carregar taxas de câmbio: Failed to fetch exchange rates") }

/-! The history synthesizer (App.tsx lines 104-128). -/

/-- `const days = timeRange === '24h' ? 1 : timeRange === '7d' ? 7 :
timeRange === '30d' ? 30 : 365` (App.tsx line 108). -/
def daysOf : TimeRange → ℕ
  | .h24 => 1
  | .d7 => 7
  | .d30 => 30
  | .y1 => 365

/-- `rates.find(r => r.currency === selectedCurrency)?.rate || 5`
(App.tsx line 109): JavaScript `||` replaces a falsy rate (0 or NaN) and an
absent record (`undefined`) by the fallback `5`. -/
def baseRateOf (rates : List ExchangeRate) (sel : String) : JSNum :=
  match rates.find? (fun r => r.currency == sel) with
  | some r => if r.rate.isFalsy then .num 5 else r.rate
  | none => .num 5

/-- `generateHistoricalData` (App.tsx lines 106-123).  The loop runs `i` from
`days` down to `0`; the `j`-th pushed element has `i = days - j` and consumes
the `j`-th draw of `Math.random()`, modelled by `rnd j`.  Date formatting
(`format(subDays(now, i/24), 'HH:mm')` resp. `format(subDays(now, i),
'dd/MM')`) depends only on `i` and the ambient clock, and is abstracted by
the collaborator functions `fmtHour` and `fmtDay`. -/
def generateHistoricalData (timeRange : TimeRange) (rates : List ExchangeRate)
    (selectedCurrency : String) (rnd : ℕ → ℚ)
    (fmtHour fmtDay : ℕ → String) : List HistoricalData :=
  let days := daysOf timeRange
  let baseRate := baseRateOf rates selectedCurrency
  (List.range (days + 1)).map (fun j =>
    let i := days - j
    { date := match timeRange with
        | .h24 => fmtHour i
        | _ => fmtDay i
      rate := (baseRate.add (.num ((rnd j - 5/10) * (2/10)))).round2JS })

/-! Alert creation and removal (App.tsx lines 130-139 and 428-433). -/

/-- `handleCreateAlert` (App.tsx lines 130-139): if `alertForm.targetRate` is
truthy (a non-empty string), append `{currency, targetRate: Number(...),
type}` to `alerts` and clear the form's `targetRate`; otherwise do nothing.
Returns the new `alerts` list and the new form state. -/
def handleCreateAlert (alerts : List Alert) (form : AlertForm) :
    List Alert × AlertForm :=
  if form.targetRate ≠ "" then
    (alerts ++ [{ currency := form.currency
                  targetRate := jsNumber form.targetRate
                  type := form.type }],
     { form with targetRate := "" })
  else
    (alerts, form)

/-- Helper for `alerts.filter((_, i) => i !== index)`: walks the list carrying
the current zero-based position. -/
def filterIdxNe (index : ℤ) : ℤ → List Alert → List Alert
  | _, [] => []
  | i, a :: rest =>
      if i ≠ index then a :: filterIdxNe index (i + 1) rest
      else filterIdxNe index (i + 1) rest

/-- The remove-alert click handler
`setAlerts(alerts.filter((_, i) => i !== index))` (App.tsx line 429). -/
def removeAlert (alerts : List Alert) (index : ℤ) : List Alert :=
  filterIdxNe index 0 alerts

/-! The conversion calculator (App.tsx lines 141-149). -/

/-- `rates.find(r => r.currency === code)?.rate || 1` (App.tsx lines
142-143): an absent record or a falsy rate falls back to `1`. -/
def lookupRate (rates : List ExchangeRate) (code : String) : JSNum :=
  match rates.find? (fun r => r.currency == code) with
  | some r => if r.rate.isFalsy then .num 1 else r.rate
  | none => .num 1

/-- `calculateConversion` (App.tsx lines 141-149): `amount =
Number(convertAmount)`; when `amount` is truthy and not NaN the result is
`((amount * fromRate) / toRate).toFixed(2)`, otherwise the literal
`"0.00"`. -/
def calculateConversion (rates : List ExchangeRate)
    (convertFrom convertTo : String) (convertAmount : String) : String :=
  let fromRate := lookupRate rates convertFrom
  let toRate := lookupRate rates convertTo
  let amount := jsNumber convertAmount
  if amount.isTruthy && !amount.isNaN then
    ((amount.mul fromRate).div toRate).toFixed2S
  else
    "0.00"

/-! Helper lemmas. -/

theorem err_msg_ne_empty (m : String) :
    "Erro ao carregar taxas de câmbio: " ++ m ≠ "" := by
  intro h
  have h2 := congrArg String.length h
  rw [String.length_append] at h2
  have h1 : ("Erro ao carregar taxas de câmbio: " : String).length = 34 := by decide
  have h3 : ("" : String).length = 0 := by decide
  omega

theorem filterIdxNe_out_of_range (index : ℤ) :
    ∀ (l : List Alert) (i : ℤ), index < i ∨ i + l.length ≤ index →
      filterIdxNe index i l = l := by
  intro l
  induction l with
  | nil => intro i _; rfl
  | cons a rest ih =>
      intro i h
      have hlen : ((a :: rest).length : ℤ) = (rest.length : ℤ) + 1 := by
        simp [List.length_cons]
      have hne : i ≠ index := by omega
      simp only [filterIdxNe, if_pos hne]
      rw [ih (i + 1) (by omega)]

/-! Concrete values used by witnesses and counterexamples. -/

def snapC5 : List ExchangeRate :=
  [⟨"USD", some "$", .num 5, 0⟩, ⟨"BRL", some "R$", .num 1, 0⟩]

def alW1 : Alert := ⟨"USD", .num 1, .above⟩

def alW2 : Alert := ⟨"EUR", .num 2, .below⟩

def alW3 : Alert := ⟨"GBP", .num 3, .above⟩

/-! Claims. -/

/-- C4: a fetch failure (a transport error, or a response whose `result` is
not `"success"`) leaves `rates` and `lastUpdate` (and every other state
field) unchanged, sets `error` to the non-empty message
`"Erro ao carregar taxas de câmbio: <cause>"`, and modifies nothing beyond
`loading`/`error`. -/
theorem claim4_failure_preserves_state (st : AppState) (cause : String)
    (r : APIResponse) (hres : r.result ≠ "success") :
    ((fetchExchangeRates st (.error cause)).rates = st.rates
      ∧ (fetchExchangeRates st (.error cause)).lastUpdate = st.lastUpdate
      ∧ (fetchExchangeRates st (.error cause)).error
          = some ("Erro ao carregar taxas de câmbio: " ++ cause)
      ∧ (fetchExchangeRates st (.error cause)).darkMode = st.darkMode
      ∧ (fetchExchangeRates st (.error cause)).selectedCurrency = st.selectedCurrency
      ∧ (fetchExchangeRates st (.error cause)).timeRange = st.timeRange
      ∧ (fetchExchangeRates st (.error cause)).historicalData = st.historicalData
      ∧ (fetchExchangeRates st (.error cause)).alerts = st.alerts
      ∧ (fetchExchangeRates st (.error cause)).showConverter = st.showConverter
      ∧ (fetchExchangeRates st (.error cause)).convertAmount = st.convertAmount
      ∧ (fetchExchangeRates st (.error cause)).convertFrom = st.convertFrom
      ∧ (fetchExchangeRates st (.error cause)).convertTo = st.convertTo)
    ∧ ((fetchExchangeRates st (.ok r)).rates = st.rates
      ∧ (fetchExchangeRates st (.ok r)).lastUpdate = st.lastUpdate
      ∧ (fetchExchangeRates st (.ok r)).error
          = some ("Erro ao carregar taxas de câmbio: Failed to fetch exchange rates")
      ∧ (fetchExchangeRates st (.ok r)).alerts = st.alerts)
    ∧ (∀ m : String, "Erro ao carregar taxas de câmbio: " ++ m ≠ "") := by
  refine ⟨?_, ?_, err_msg_ne_empty⟩
  · simp [fetchExchangeRates]
  · simp [fetchExchangeRates, if_neg hres]

/-- C4 witness: the failure transition evaluated at a concrete state and a
concrete failing outcome. -/
theorem claim4_witness :
    ((fetchExchangeRates ⟨false, "USD", .d7, snapC5, [], [alW1], false, "", "USD", "BRL", false, none, some 111⟩ (.error "boom")).rates
        = (⟨false, "USD", .d7, snapC5, [], [alW1], false, "", "USD", "BRL", false, none, some 111⟩ : AppState).rates
      ∧ (fetchExchangeRates ⟨false, "USD", .d7, snapC5, [], [alW1], false, "", "USD", "BRL", false, none, some 111⟩ (.error "boom")).lastUpdate
        = (⟨false, "USD", .d7, snapC5, [], [alW1], false, "", "USD", "BRL", false, none, some 111⟩ : AppState).lastUpdate
      ∧ (fetchExchangeRates ⟨false, "USD", .d7, snapC5, [], [alW1], false, "", "USD", "BRL", false, none, some 111⟩ (.error "boom")).error
        = some ("Erro ao carregar taxas de câmbio: " ++ "boom")
      ∧ (fetchExchangeRates ⟨false, "USD", .d7, snapC5, [], [alW1], false, "", "USD", "BRL", false, none, some 111⟩ (.error "boom")).darkMode
        = (⟨false, "USD", .d7, snapC5, [], [alW1], false, "", "USD", "BRL", false, none, some 111⟩ : AppState).darkMode
      ∧ (fetchExchangeRates ⟨false, "USD", .d7, snapC5, [], [alW1], false, "", "USD", "BRL", false, none, some 111⟩ (.error "boom")).selectedCurrency
        = (⟨false, "USD", .d7, snapC5, [], [alW1], false, "", "USD", "BRL", false, none, some 111⟩ : AppState).selectedCurrency
      ∧ (fetchExchangeRates ⟨false, "USD", .d7, snapC5, [], [alW1], false, "", "USD", "BRL", false, none, some 111⟩ (.error "boom")).timeRange
        = (⟨false, "USD", .d7, snapC5, [], [alW1], false, "", "USD", "BRL", false, none, some 111⟩ : AppState).timeRange
      ∧ (fetchExchangeRates ⟨false, "USD", .d7, snapC5, [], [alW1], false, "", "USD", "BRL", false, none, some 111⟩ (.error "boom")).historicalData
        = (⟨false, "USD", .d7, snapC5, [], [alW1], false, "", "USD", "BRL", false, none, some 111⟩ : AppState).historicalData
      ∧ (fetchExchangeRates ⟨false, "USD", .d7, snapC5, [], [alW1], false, "", "USD", "BRL", false, none, some 111⟩ (.error "boom")).alerts
        = (⟨false, "USD", .d7, snapC5, [], [alW1], false, "", "USD", "BRL", false, none, some 111⟩ : AppState).alerts
      ∧ (fetchExchangeRates ⟨false, "USD", .d7, snapC5, [], [alW1], false, "", "USD", "BRL", false, none, some 111⟩ (.error "boom")).showConverter
        = (⟨false, "USD", .d7, snapC5, [], [alW1], false, "", "USD", "BRL", false, none, some 111⟩ : AppState).showConverter
      ∧ (fetchExchangeRates ⟨false, "USD", .d7, snapC5, [], [alW1], false, "", "USD", "BRL", false, none, some 111⟩ (.error "boom")).convertAmount
        = (⟨false, "USD", .d7, snapC5, [], [alW1], false, "", "USD", "BRL", false, none, some 111⟩ : AppState).convertAmount
      ∧ (fetchExchangeRates ⟨false, "USD", .d7, snapC5, [], [alW1], false, "", "USD", "BRL", false, none, some 111⟩ (.error "boom")).convertFrom
        = (⟨false, "USD", .d7, snapC5, [], [alW1], false, "", "USD", "BRL", false, none, some 111⟩ : AppState).convertFrom
      ∧ (fetchExchangeRates ⟨false, "USD", .d7, snapC5, [], [alW1], false, "", "USD", "BRL", false, none, some 111⟩ (.error "boom")).convertTo
        = (⟨false, "USD", .d7, snapC5, [], [alW1], false, "", "USD", "BRL", false, none, some 111⟩ : AppState).convertTo)
    ∧ ((fetchExchangeRates ⟨false, "USD", .d7, snapC5, [], [alW1], false, "", "USD", "BRL", false, none, some 111⟩ (.ok ⟨"error", "BRL", fun _ => none, 7⟩)).rates
        = (⟨false, "USD", .d7, snapC5, [], [alW1], false, "", "USD", "BRL", false, none, some 111⟩ : AppState).rates
      ∧ (fetchExchangeRates ⟨false, "USD", .d7, snapC5, [], [alW1], false, "", "USD", "BRL", false, none, some 111⟩ (.ok ⟨"error", "BRL", fun _ => none, 7⟩)).lastUpdate
        = (⟨false, "USD", .d7, snapC5, [], [alW1], false, "", "USD", "BRL", false, none, some 111⟩ : AppState).lastUpdate
      ∧ (fetchExchangeRates ⟨false, "USD", .d7, snapC5, [], [alW1], false, "", "USD", "BRL", false, none, some 111⟩ (.ok ⟨"error", "BRL", fun _ => none, 7⟩)).error
        = some ("Erro ao carregar taxas de câmbio: Failed to fetch exchange rates")
      ∧ (fetchExchangeRates ⟨false, "USD", .d7, snapC5, [], [alW1], false, "", "USD", "BRL", false, none, some 111⟩ (.ok ⟨"error", "BRL", fun _ => none, 7⟩)).alerts
        = (⟨false, "USD", .d7, snapC5, [], [alW1], false, "", "USD", "BRL", false, none, some 111⟩ : AppState).alerts)
    ∧ (∀ m : String, "Erro ao carregar taxas de câmbio: " ++ m ≠ "") :=
  claim4_failure_preserves_state _ "boom" ⟨"error", "BRL", fun _ => none, 7⟩ (by decide)

/-- C5: `calculateConversion` looks up the two rates (each independently
defaulting to `1` when the code has no record), converts the amount string,
and returns `(amount * fromRate) / toRate` rounded to 2 decimal places; on
the snapshot `{USD: 5.00, BRL: 1.00}` it maps `(10, "USD", "BRL")` to
`"50.00"`. -/
theorem claim5_conversion_formula (rates : List ExchangeRate)
    (fromCode toCode s : String) (a fr tr : ℚ)
    (hs : jsNumber s = .num a) (ha : a ≠ 0)
    (hf : lookupRate rates fromCode = .num fr)
    (ht : lookupRate rates toCode = .num tr) (htr : tr ≠ 0) :
    calculateConversion rates fromCode toCode s = toFixed2 (a * fr / tr)
    ∧ (∀ code, rates.find? (fun rec => rec.currency == code) = none →
        lookupRate rates code = .num 1)
    ∧ calculateConversion snapC5 "USD" "BRL" "10" = "50.00" := by
  refine ⟨?_, ?_, ?_⟩
  · simp only [calculateConversion, hs, hf, ht, JSNum.isTruthy, JSNum.isFalsy,
      JSNum.isNaN, JSNum.mul, JSNum.div]
    rw [if_neg htr]
    simp [JSNum.toFixed2S, beq_iff_eq, ha]
  · intro code hnone
    simp [lookupRate, hnone]
  · have h1 : lookupRate snapC5 "USD" = .num 5 := by decide
    have h2 : lookupRate snapC5 "BRL" = .num 1 := by decide
    have h3 : jsNumber "10" = .num 10 := by decide
    simp only [calculateConversion, h1, h2, h3]
    norm_num [JSNum.isTruthy, JSNum.isFalsy, JSNum.isNaN, JSNum.mul,
      JSNum.div, JSNum.toFixed2S]
    simp only [toFixed2]
    norm_num [round_eq]
    rfl

/-- C5 witness: the formula applied to the concrete snapshot
`{USD: 5.00, BRL: 1.00}` with amount string `"10"`. -/
theorem claim5_witness :
    (calculateConversion snapC5 "USD" "BRL" "10" = toFixed2 (10 * 5 / 1)
    ∧ (∀ code, snapC5.find? (fun rec => rec.currency == code) = none →
        lookupRate snapC5 code = .num 1)
    ∧ calculateConversion snapC5 "USD" "BRL" "10" = "50.00") :=
  claim5_conversion_formula snapC5 "USD" "BRL" "10" 10 5 1 (by decide)
    (by norm_num) (by decide) (by decide) (by norm_num)

/-- C6: converting an amount of 100 from a currency to itself returns
`"100.00"` whenever the snapshot resolves that currency to one positive
rate (self-conversion identity). -/
theorem claim6_self_conversion_identity (rates : List ExchangeRate)
    (c : String) (r : ℚ) (hl : lookupRate rates c = .num r) (hr : 0 < r) :
    calculateConversion rates c c "100" = "100.00" := by
  have hr0 : r ≠ 0 := ne_of_gt hr
  have hnum : jsNumber "100" = .num 100 := by decide
  simp only [calculateConversion, hl, hnum, JSNum.isTruthy, JSNum.isFalsy,
    JSNum.isNaN, JSNum.mul, JSNum.div]
  rw [if_neg hr0]
  have h100 : (100 : ℚ) * r / r = 100 := by field_simp
  simp only [h100, JSNum.toFixed2S]
  norm_num
  simp only [toFixed2]
  norm_num [round_eq]
  rfl

/-- C6 witness: self-conversion on the concrete snapshot `{USD: 5.00,
BRL: 1.00}`. -/
theorem claim6_witness : calculateConversion snapC5 "USD" "USD" "100" = "100.00" :=
  claim6_self_conversion_identity snapC5 "USD" 5 (by decide) (by norm_num)

/-- C7: an amount string that is empty, non-numeric, or whose numeric value
is NaN or 0 makes `calculateConversion` return the literal `"0.00"` for every
snapshot and every pair of codes. -/
theorem claim7_invalid_amount_displays_zero (rates : List ExchangeRate)
    (fromCode toCode s : String)
    (hs : jsNumber s = .nan ∨ jsNumber s = .num 0) :
    calculateConversion rates fromCode toCode s = "0.00"
    ∧ calculateConversion rates fromCode toCode "" = "0.00"
    ∧ calculateConversion rates fromCode toCode "abc" = "0.00"
    ∧ calculateConversion rates fromCode toCode "0" = "0.00" := by
  refine ⟨?_, ?_, ?_, ?_⟩
  · rcases hs with h | h <;>
      simp [calculateConversion, h, JSNum.isTruthy, JSNum.isFalsy, JSNum.isNaN]
  all_goals
    simp [calculateConversion, jsNumber, parseSignedDec, parseUnsignedDec,
      JSNum.isTruthy, JSNum.isFalsy, JSNum.isNaN]

/-- C7 witness: the invalid-amount fallback evaluated on the concrete
snapshot, at the non-numeric string `"abc"`. -/
theorem claim7_witness :
    calculateConversion snapC5 "USD" "BRL" "abc" = "0.00"
    ∧ calculateConversion snapC5 "USD" "BRL" "" = "0.00"
    ∧ calculateConversion snapC5 "USD" "BRL" "abc" = "0.00"
    ∧ calculateConversion snapC5 "USD" "BRL" "0" = "0.00" :=
  claim7_invalid_amount_displays_zero snapC5 "USD" "BRL" "abc" (Or.inl (by decide))

/-- C8: alert rules are appended in creation order and removed by positional
index: a freshly created rule removed at index 0 leaves the registry empty,
and removing index 0 from a 3-element list drops exactly the first rule,
keeping the other two in order. -/
theorem claim8_alert_order_and_removal (alerts : List Alert) (f : AlertForm)
    (a b c : Alert) (hf : f.targetRate ≠ "") :
    (handleCreateAlert alerts f).1
      = alerts ++ [⟨f.currency, jsNumber f.targetRate, f.type⟩]
    ∧ removeAlert ((handleCreateAlert [] ⟨"USD", "5.50", .above⟩).1) 0 = []
    ∧ removeAlert [a, b, c] 0 = [b, c] := by
  refine ⟨?_, ?_, ?_⟩
  · simp [handleCreateAlert, hf]
  · decide
  · norm_num [removeAlert, filterIdxNe]

/-- C8 witness: creation and positional removal evaluated on concrete
rules. -/
theorem claim8_witness :
    (handleCreateAlert [alW1] ⟨"USD", "5.50", .above⟩).1
      = [alW1] ++ [⟨"USD", jsNumber "5.50", .above⟩]
    ∧ removeAlert ((handleCreateAlert [] ⟨"USD", "5.50", .above⟩).1) 0 = []
    ∧ removeAlert [alW1, alW2, alW3] 0 = [alW2, alW3] :=
  claim8_alert_order_and_removal [alW1] ⟨"USD", "5.50", .above⟩ alW1 alW2 alW3
    (by decide)

/-- C9: removing an out-of-range index (negative, or at least the list
length) is a total no-op: the positional filter keeps every element and no
error is raised. -/
theorem claim9_remove_out_of_range_noop (alerts : List Alert) (index : ℤ)
    (h : index < 0 ∨ (alerts.length : ℤ) ≤ index) :
    removeAlert alerts index = alerts := by
  apply filterIdxNe_out_of_range
  omega

/-- C9 witness: removing index 5 from a 1-element list changes nothing. -/
theorem claim9_witness : removeAlert [alW1] 5 = [alW1] :=
  claim9_remove_out_of_range_noop [alW1] 5 (by norm_num)

/-- C10: invoking alert creation with an empty `targetRate` leaves both the
alert list and the form unchanged — a silent no-op, no error. -/
theorem claim10_empty_target_rate_noop (alerts : List Alert) (f : AlertForm)
    (hf : f.targetRate = "") :
    handleCreateAlert alerts f = (alerts, f) := by
  simp [handleCreateAlert, hf]

/-- C10 witness: the no-op evaluated on a concrete registry and an empty
form. -/
theorem claim10_witness :
    handleCreateAlert [alW1] ⟨"USD", "", .above⟩ = ([alW1], ⟨"USD", "", .above⟩) :=
  claim10_empty_target_rate_noop [alW1] ⟨"USD", "", .above⟩ (by decide)

/-! Concrete fetch inputs for C1 and C2. -/

def stPrior : AppState :=
  { darkMode := false, selectedCurrency := "USD", timeRange := .d7,
    rates := [⟨"USD", some "$", .num 5, 0⟩], historicalData := [],
    alerts := [], showConverter := false, convertAmount := "",
    convertFrom := "USD", convertTo := "BRL", loading := false,
    error := none, lastUpdate := some 111 }

/-- A `result == "success"` response whose `conversion_rates` has no `USD`
key at all. -/
def respMissingUSD : APIResponse :=
  { result := "success", base_code := "BRL",
    conversion_rates := fun c =>
      if c = "EUR" then some 5 else if c = "GBP" then some 4 else none,
    time_last_update_unix := 1700000000 }

/-- A `result == "success"` response mapping `USD` to `0` and `EUR` to a
negative value. -/
def respZeroUSD : APIResponse :=
  { result := "success", base_code := "BRL",
    conversion_rates := fun c =>
      if c = "USD" then some 0 else if c = "EUR" then some (-2) else some 4,
    time_last_update_unix := 1700000000 }

/-- A well-formed `result == "success"` response with all three non-home
rates present and positive. -/
def respAll : APIResponse :=
  { result := "success", base_code := "BRL",
    conversion_rates := fun c =>
      if c = "USD" then some 5
      else if c = "EUR" then some 4
      else if c = "GBP" then some 2 else none,
    time_last_update_unix := 1700000000 }

/-- C1 counterexample: a `success` response missing the required `USD` rate
(and another mapping `USD` to zero) is NOT reported as a failure — `error`
stays `none`, a new snapshot replaces the prior one (with a NaN resp.
Infinity rate), and `lastUpdate` is overwritten. -/
theorem claim1_counterexample :
    (fetchExchangeRates stPrior (.ok respMissingUSD)).error = none
    ∧ (fetchExchangeRates stPrior (.ok respMissingUSD)).rates ≠ stPrior.rates
    ∧ ((fetchExchangeRates stPrior (.ok respMissingUSD)).rates.map
        (fun rec => rec.rate)) = [.nan, .num (1/5), .num (1/4), .num 1]
    ∧ (fetchExchangeRates stPrior (.ok respMissingUSD)).lastUpdate
        = some 1700000000000
    ∧ (fetchExchangeRates stPrior (.ok respZeroUSD)).error = none
    ∧ ((fetchExchangeRates stPrior (.ok respZeroUSD)).rates.map
        (fun rec => rec.rate)) = [.posInf, .num (-(1/2)), .num (1/4), .num 1] := by
  refine ⟨rfl, ?_, ?_, rfl, rfl, ?_⟩
  · intro h
    have hlen := congrArg List.length h
    have h4 : (fetchExchangeRates stPrior (.ok respMissingUSD)).rates.length = 4 := by
      simp [fetchExchangeRates, respMissingUSD, newRates, SUPPORTED_CURRENCIES]
    have h1 : stPrior.rates.length = 1 := rfl
    rw [h4, h1] at hlen
    exact absurd hlen (by norm_num)
  · simp +decide [fetchExchangeRates, respMissingUSD, newRates,
      SUPPORTED_CURRENCIES, mkRecord, jsInv]
  · simp +decide [fetchExchangeRates, respZeroUSD, newRates,
      SUPPORTED_CURRENCIES, mkRecord, jsInv]
    norm_num

/-- C1 amended: on a `result == "success"` response the fetch always
succeeds — `error` is cleared, the snapshot is rebuilt from
`conversion_rates`, and `lastUpdate` is overwritten — regardless of missing
or non-positive rates; a missing key yields a NaN record rate and a zero
wire rate yields an Infinity record rate (only a thrown transport error or a
non-`success` result takes the failure path). -/
theorem claim1_success_always_replaces (st : AppState) (r : APIResponse)
    (hres : r.result = "success") :
    (fetchExchangeRates st (.ok r)).error = none
    ∧ (fetchExchangeRates st (.ok r)).rates = newRates r.conversion_rates
    ∧ (fetchExchangeRates st (.ok r)).lastUpdate
        = some (r.time_last_update_unix * 1000)
    ∧ (∀ c, c ≠ "BRL" →
        (mkRecord r.conversion_rates c).rate = jsInv (r.conversion_rates c))
    ∧ jsInv none = .nan
    ∧ (∀ q : ℚ, q ≠ 0 → jsInv (some q) = .num (1 / q))
    ∧ jsInv (some 0) = .posInf := by
  refine ⟨?_, ?_, ?_, ?_, rfl, ?_, by norm_num [jsInv]⟩
  · simp [fetchExchangeRates, if_pos hres]
  · simp [fetchExchangeRates, if_pos hres]
  · simp [fetchExchangeRates, if_pos hres]
  · intro c hc
    simp [mkRecord, hc]
  · intro q hq
    simp [jsInv, hq]

/-- C1 witness: the always-succeeds transition evaluated at the concrete
prior state and the response missing `USD`. -/
theorem claim1_witness :
    (fetchExchangeRates stPrior (.ok respMissingUSD)).error = none
    ∧ (fetchExchangeRates stPrior (.ok respMissingUSD)).rates
        = newRates respMissingUSD.conversion_rates
    ∧ (fetchExchangeRates stPrior (.ok respMissingUSD)).lastUpdate
        = some (respMissingUSD.time_last_update_unix * 1000)
    ∧ (∀ c, c ≠ "BRL" →
        (mkRecord respMissingUSD.conversion_rates c).rate
          = jsInv (respMissingUSD.conversion_rates c))
    ∧ jsInv none = .nan
    ∧ (∀ q : ℚ, q ≠ 0 → jsInv (some q) = .num (1 / q))
    ∧ jsInv (some 0) = .posInf :=
  claim1_success_always_replaces stPrior respMissingUSD (by decide)

/-- C2: a successful fetch whose wire mapping carries a nonzero rate for
each non-home currency produces exactly one record per supported currency in
the order `[USD, EUR, GBP, BRL]`, the non-home rates being the inverted wire
values and the home (`BRL`) rate being the constant `1`, independent of the
wire mapping (never by inversion). -/
theorem claim2_snapshot_normalization (st : AppState) (r : APIResponse)
    (u e g : ℚ) (hres : r.result = "success")
    (hu : r.conversion_rates "USD" = some u) (hu0 : u ≠ 0)
    (he : r.conversion_rates "EUR" = some e) (he0 : e ≠ 0)
    (hg : r.conversion_rates "GBP" = some g) (hg0 : g ≠ 0) :
    (fetchExchangeRates st (.ok r)).rates =
      [⟨"USD", some "$", .num (1/u), 0⟩, ⟨"EUR", some "€", .num (1/e), 0⟩,
       ⟨"GBP", some "£", .num (1/g), 0⟩, ⟨"BRL", some "R$", .num 1, 0⟩]
    ∧ (∀ conv : String → Option ℚ, (mkRecord conv "BRL").rate = .num 1) := by
  constructor
  · simp only [fetchExchangeRates, if_pos hres]
    simp [newRates, SUPPORTED_CURRENCIES, mkRecord, jsInv, hu, he, hg,
      hu0, he0, hg0, CURRENCY_SYMBOLS]
  · intro conv
    simp [mkRecord]

/-- C2 witness: the normalization evaluated at the concrete response with
wire rates `USD ↦ 5`, `EUR ↦ 4`, `GBP ↦ 2`. -/
theorem claim2_witness :
    (fetchExchangeRates stPrior (.ok respAll)).rates =
      [⟨"USD", some "$", .num (1/5), 0⟩, ⟨"EUR", some "€", .num (1/4), 0⟩,
       ⟨"GBP", some "£", .num (1/2), 0⟩, ⟨"BRL", some "R$", .num 1, 0⟩]
    ∧ (∀ conv : String → Option ℚ, (mkRecord conv "BRL").rate = .num 1) :=
  claim2_snapshot_normalization stPrior respAll 5 4 2 (by decide)
    (by decide) (by norm_num) (by decide) (by norm_num) (by decide) (by norm_num)

/-- A snapshot whose selected rate has three decimal places, used to exhibit
rounding overshoot in the history synthesizer. -/
def ratesCex3 : List ExchangeRate := [⟨"USD", some "$", .num (5006/1000), 0⟩]

/-- C3 counterexample: with `baseRate = 5.006` and a legal draw
`u = (0.9995 - 0.5) * 0.2 = 0.0999 ∈ [-0.1, +0.1)`, every produced point has
rate `round2(5.1059) = 5.11`, which exceeds `baseRate + 0.1 = 5.106` — so a
point's rate does NOT always lie within `[baseRate - 0.1, baseRate + 0.1]`
(the point-count part of the claim is unaffected). -/
theorem claim3_counterexample :
    ((generateHistoricalData .h24 ratesCex3 "USD" (fun _ => 9995/10000)
        (fun _ => "") (fun _ => "")).map (fun p => p.rate))
      = [.num (511/100), .num (511/100)]
    ∧ baseRateOf ratesCex3 "USD" = .num (5006/1000)
    ∧ ((0:ℚ) ≤ 9995/10000 ∧ (9995/10000 : ℚ) < 1)
    ∧ (5006/1000 : ℚ) + 1/10 < 511/100 := by
  have hb : baseRateOf ratesCex3 "USD" = .num (5006/1000) := by
    simp only [baseRateOf, ratesCex3, List.find?]
    norm_num [JSNum.isFalsy]
  refine ⟨?_, hb, by norm_num, by norm_num⟩
  simp only [generateHistoricalData, daysOf, hb]
  simp [List.range_succ, JSNum.add, JSNum.round2JS, round2]
  norm_num [round_eq]

/-- C3 (amended): for every range the synthesizer returns exactly `N+1`
points (`N` = 1, 7, 30, 365 for 24h/7d/30d/1y), and — because the draw lies
in `[-0.1, +0.1)` and half-up rounding to 2 decimals moves a value by at most
`0.005` — every point's rate lies within `[baseRate - 0.105,
baseRate + 0.105]` (the original `±0.1` bound holds only up to this rounding
slack). -/
theorem claim3_count_and_bounded (tr : TimeRange) (rates : List ExchangeRate)
    (sel : String) (rnd : ℕ → ℚ) (fmtH fmtD : ℕ → String) (b : ℚ)
    (hb : baseRateOf rates sel = .num b)
    (hr : ∀ k, 0 ≤ rnd k ∧ rnd k < 1) :
    (generateHistoricalData tr rates sel rnd fmtH fmtD).length = daysOf tr + 1
    ∧ ∀ p ∈ generateHistoricalData tr rates sel rnd fmtH fmtD,
        ∃ q : ℚ, p.rate = .num q ∧ b - 21/200 ≤ q ∧ q ≤ b + 21/200 := by
  constructor
  · simp [generateHistoricalData]
  · intro p hp
    simp only [generateHistoricalData, hb, List.mem_map, List.mem_range] at hp
    obtain ⟨j, hj, rfl⟩ := hp
    refine ⟨round2 (b + (rnd j - 5/10) * (2/10)), by simp [JSNum.add, JSNum.round2JS], ?_, ?_⟩
    all_goals
      have hu1 : -(1/10) ≤ (rnd j - 5/10) * (2/10) := by nlinarith [(hr j).1]
      have hu2 : (rnd j - 5/10) * (2/10) < 1/10 := by nlinarith [(hr j).2]
      have hrd := abs_sub_round ((b + (rnd j - 5/10) * (2/10)) * 100)
      rw [abs_le] at hrd
      simp only [round2]
      linarith [hrd.1, hrd.2, hu1, hu2]

/-- C3 witness: the count and bound evaluated on the 24h range with base
rate 5 and the constant draw `1/2`. -/
theorem claim3_witness :
    (generateHistoricalData .h24 snapC5 "USD" (fun _ => 1/2)
        (fun _ => "") (fun _ => "")).length = daysOf .h24 + 1
    ∧ ∀ p ∈ generateHistoricalData .h24 snapC5 "USD" (fun _ => 1/2)
        (fun _ => "") (fun _ => ""),
        ∃ q : ℚ, p.rate = .num q ∧ 5 - 21/200 ≤ q ∧ q ≤ 5 + 21/200 :=
  claim3_count_and_bounded .h24 snapC5 "USD" (fun _ => 1/2)
    (fun _ => "") (fun _ => "") 5 (by decide)
    (fun _ => ⟨by norm_num, by norm_num⟩)
